import Mathlib

/-!
Verification of the `green-aloe/metal` bridging layer against its
specification.  The repository's three headers (`metal.h`, `Cache2.h`,
`cache.h`) declare the boundary surface; the implementation files are not
present, so the behaviour of each operation is modelled from the spec while
the declared signatures themselves are embedded directly from the headers.
-/

deriving instance DecidableEq for Except

namespace Metal

/-!  ### Handle Table (generic cache)

Modelled from the spec: the implementation behind `Cache2.h`'s
`cache_cache` / `cache_retrieve` / `cache_remove` is not under `src/` (only
the header is), so the handle table is modelled from spec section 4.1: a
mapping from integer ids to handles; `insert` stores the handle under a
fresh id that is not live, `retrieve` returns the stored handle or fails
with NotFound, `remove` deletes the entry or fails with NotFound.  Ids are
represented as naturals, handles as an arbitrary type `α`.  -/

/-- The handle table: an association list from live ids to handles. -/
abbrev HandleTable (α : Type) : Type := List (Nat × α)

/-- Modelled from the spec: `cache_init` creates the (empty) process-wide
table; the `cache_init` body is not under `src/`. -/
def cache_init (α : Type) : HandleTable α := []

/-- The list of currently live ids of a table. -/
def keys {α : Type} (t : HandleTable α) : List Nat := t.map Prod.fst

/-- A fresh id: one strictly greater than every live id, hence never a
reissue of a live id (spec: "Id generation must never reissue an id that is
still live"; reuse after removal is permitted but not required). -/
def freshId {α : Type} (t : HandleTable α) : Nat :=
  t.foldr (fun p m => max (p.1 + 1) m) 0

/-- Modelled from the spec: `cache_cache` (insert) stores the handle and
returns the fresh id together with the new table; it never fails. -/
def cache_cache {α : Type} (t : HandleTable α) (item : α) : Nat × HandleTable α :=
  (freshId t, (freshId t, item) :: t)

/-- Modelled from the spec: `cache_retrieve` returns the stored handle for a
live id, and `none` (NotFound) if the id is absent or already removed. -/
def cache_retrieve {α : Type} (t : HandleTable α) (cacheId : Nat) : Option α :=
  (t.find? (fun p => p.1 == cacheId)).map Prod.snd

/-- Modelled from the spec: `cache_remove` deletes the entry for a live id,
reporting success; on an absent id it fails (NotFound) and leaves the table
unchanged. -/
def cache_remove {α : Type} (t : HandleTable α) (cacheId : Nat) :
    Bool × HandleTable α :=
  if t.any (fun p => p.1 == cacheId) then
    (true, t.filter (fun p => p.1 != cacheId))
  else
    (false, t)

/-- One operation on the handle table, as issued by a caller. -/
inductive CacheOp (α : Type) where
  | ins (item : α)
  | rem (id : Nat)

/-- Apply one operation to a table, keeping only the resulting table. -/
def applyOp {α : Type} (t : HandleTable α) : CacheOp α → HandleTable α
  | .ins item => (cache_cache t item).2
  | .rem id => (cache_remove t id).2

/-- The table reached from the freshly initialized table by a sequence of
insert/remove operations. -/
def applyOps {α : Type} (ops : List (CacheOp α)) : HandleTable α :=
  ops.foldl applyOp (cache_init α)

/-- Insert a list of handles one after the other, collecting the ids issued. -/
def insertAll {α : Type} (t : HandleTable α) : List α → List Nat × HandleTable α
  | [] => ([], t)
  | h :: rest =>
    let r := cache_cache t h
    let rr := insertAll r.2 rest
    (r.1 :: rr.1, rr.2)

/-- The C-level view of `Cache2.h`'s `void *cache_retrieve(int, const char
**error)`, with naturals standing for `void *` values and `0` for `NULL`.
Modelled from the spec and the header signature: the stored pointer is
returned directly (with `NULL` when the id is absent) and the error
out-parameter carries the NotFound diagnostic on failure. -/
def cache_retrieve_c (t : HandleTable Nat) (cacheId : Nat) : Nat × Option String :=
  match cache_retrieve t cacheId with
  | some p => (p, none)
  | none => (0, some "cache id not found")

/-! ### Metal layer state and errors

Modelled from the spec: the bodies behind `metal.h`'s declarations are not
under `src/` (only the header is), so the Function Registry, Buffer
Manager, Dispatch Engine and Bootstrap are modelled from spec sections
4.2-4.4, 5 and 7.  The native compiler and the native execution backend are
external collaborators and enter the model as parameters. -/

/-- The error taxonomy of spec section 7. -/
inductive MetalError where
  | notInitialized
  | notFound (id : Nat)
  | compileError (diagnostic : String)
  | allocationError (reason : String)
  | dispatchFunctionNotFound
  | dispatchBufferNotFound (index : Nat)
  | dispatchNativeFailure (message : String)
deriving DecidableEq, Repr

/-- A compiled kernel object: carries the entry-point name that
`function_name` reports. -/
structure Kernel where
  name : String
deriving DecidableEq, Repr

/-- The process-wide state of the bridge: the Bootstrap flag, the Function
Registry's and the Buffer Manager's handle tables, the native memory blocks
(pointer to contents), and the next unused native pointer. -/
structure MetalState where
  initialized : Bool
  functions : HandleTable Kernel
  buffers : HandleTable Nat
  mem : List (Nat × List Int)
  nextPtr : Nat
deriving DecidableEq, Repr

/-- The state before Bootstrap has run. -/
def initialState : MetalState :=
  { initialized := false, functions := [], buffers := [], mem := [], nextPtr := 0 }

/-- Modelled from the spec: `metal_init` (Bootstrap) initializes the native
GPU context once; afterwards the other entry points may run. -/
def metal_init (s : MetalState) : MetalState := { s with initialized := true }

/-- Modelled from the spec: `function_new` (compile) invokes the native
compiler on the source text and entry-point name; on success it inserts the
kernel into the Function Registry's handle table and returns the id, on a
native diagnostic it fails with `CompileError` carrying that diagnostic and
changes nothing. -/
def function_new (compileNative : String → String → Except String Kernel)
    (s : MetalState) (metalCode funcName : String) :
    Except MetalError Nat × MetalState :=
  if s.initialized = false then (.error .notInitialized, s)
  else
    match compileNative metalCode funcName with
    | .error diag => (.error (.compileError diag), s)
    | .ok k =>
      let r := cache_cache s.functions k
      (.ok r.1, { s with functions := r.2 })

/-- Modelled from the spec: `function_name` returns the entry-point name of
a live compiled function and reports NotFound (never crashing) when the id
does not refer to one. -/
def function_name (s : MetalState) (functionId : Nat) : Except MetalError String :=
  if s.initialized = false then .error .notInitialized
  else
    match cache_retrieve s.functions functionId with
    | some k => .ok k.name
    | none => .error (.notFound functionId)

/-- Modelled from the spec: `buffer_new` (allocate) requests a native region
of `size` bytes, fails with `AllocationError` if `size ≤ 0`, and otherwise
registers the fresh region in the Buffer Manager's handle table. -/
def buffer_new (s : MetalState) (size : Int) : Except MetalError Nat × MetalState :=
  if s.initialized = false then (.error .notInitialized, s)
  else if size ≤ 0 then (.error (.allocationError "size must be positive"), s)
  else
    let p := s.nextPtr
    let r := cache_cache s.buffers p
    (.ok r.1,
     { s with
        buffers := r.2
        mem := (p, List.replicate size.toNat 0) :: s.mem
        nextPtr := p + 1 })

/-- Modelled from the spec: `buffer_retrieve` (map) returns the raw pointer
backing a live buffer and fails with NotFound otherwise. -/
def buffer_retrieve (s : MetalState) (bufferId : Nat) : Except MetalError Nat :=
  if s.initialized = false then .error .notInitialized
  else
    match cache_retrieve s.buffers bufferId with
    | some p => .ok p
    | none => .error (.notFound bufferId)

/-- Modelled from the spec: `buffer_close` (release) frees the native
memory and removes the handle-table entry of a live buffer; on a dead id it
fails with NotFound instead of double-freeing. -/
def buffer_close (s : MetalState) (bufferId : Nat) :
    Except MetalError Unit × MetalState :=
  if s.initialized = false then (.error .notInitialized, s)
  else
    match cache_retrieve s.buffers bufferId with
    | none => (.error (.notFound bufferId), s)
    | some p =>
      (.ok (),
       { s with
          buffers := (cache_remove s.buffers bufferId).2
          mem := s.mem.filter (fun q => q.1 != p) })

/-- The contents of the memory block at a native pointer. -/
def lookupMem (m : List (Nat × List Int)) (p : Nat) : List Int :=
  ((m.find? (fun q => q.1 == p)).map Prod.snd).getD []

/-- Overwrite the contents of the block at pointer `p`. -/
def memUpdate (m : List (Nat × List Int)) (p : Nat) (c : List Int) :
    List (Nat × List Int) :=
  m.map (fun q => if q.1 == p then (q.1, c) else q)

/-- Write a batch of (pointer, new contents) pairs back into memory. -/
def writeBlocks (m : List (Nat × List Int)) (ws : List (Nat × List Int)) :
    List (Nat × List Int) :=
  ws.foldl (fun acc w => memUpdate acc w.1 w.2) m

/-- Resolve a list of buffer ids in order; on the first id that is not live
return its position, otherwise the list of resolved native pointers. -/
def resolveBuffers (t : HandleTable Nat) : List Nat → Except Nat (List Nat)
  | [] => .ok []
  | id :: rest =>
    match cache_retrieve t id with
    | none => .error 0
    | some p =>
      match resolveBuffers t rest with
      | .error j => .error (j + 1)
      | .ok ps => .ok (p :: ps)

/-- Modelled from the spec: `function_run` (dispatch) resolves the function
id, then each buffer id in order (failing with `BufferNotFound` at the
first missing one), hands the kernel, the 3D grid, the scalar arguments and
the resolved buffer contents to the native backend, and on completion
writes the resulting buffer contents back; its only mutation is to buffer
contents. -/
def function_run
    (nativeExec : Kernel → Int → Int → Int → List Int → List (List Int) →
       Except String (List (List Int)))
    (s : MetalState) (functionId : Nat) (width height depth : Int)
    (args : List Int) (bufferIds : List Nat) :
    Except MetalError Unit × MetalState :=
  if s.initialized = false then (.error .notInitialized, s)
  else
    match cache_retrieve s.functions functionId with
    | none => (.error .dispatchFunctionNotFound, s)
    | some k =>
      match resolveBuffers s.buffers bufferIds with
      | .error i => (.error (.dispatchBufferNotFound i), s)
      | .ok ptrs =>
        match nativeExec k width height depth args (ptrs.map (lookupMem s.mem)) with
        | .error msg => (.error (.dispatchNativeFailure msg), s)
        | .ok newBlocks =>
          (.ok (), { s with mem := writeBlocks s.mem (ptrs.zip newBlocks) })

/-! ### The declared boundary signatures

These are embedded directly from the headers under `src/`: for every
declared boundary operation (Bootstrap's init functions aside) we record
whether the declaration takes a `const char **error` out-parameter and what
its C return type is.  `cache.h` and `Cache2.h` are the two observed
revisions of the generic cache interface. -/

/-- The two observed error-signaling conventions: an explicit
`const char **error` out-parameter carrying a diagnostic string, versus
silent/boolean-only signaling through the return value alone. -/
inductive ErrorConvention where
  | outParamDiagnostic
  | silent
deriving DecidableEq, Repr

/-- C return types appearing in the headers. -/
inductive CReturn where
  | intId
  | voidPtr
  | boolStatus
  | voidReturn
  | constCharPtr
deriving DecidableEq, Repr

/-- The boundary operations declared in the headers. -/
inductive OpName where
  | functionNew
  | functionRun
  | functionName
  | bufferNew
  | bufferRetrieve
  | bufferClose
  | cacheCacheV2
  | cacheRetrieveV2
  | cacheRemoveV2
  | cacheCacheV1
  | cacheRetrieveV1
  | cacheRemoveV1
deriving DecidableEq, Repr

/-- One declared boundary operation: its identity, whether its declaration
takes a `const char **error` out-parameter, and its return type. -/
structure BoundaryDecl where
  op : OpName
  hasErrorOutParam : Bool
  ret : CReturn
deriving DecidableEq, Repr

/-- The boundary declarations of `metal.h` (compile, dispatch, name lookup,
allocate, map, release), `Cache2.h` and `cache.h` (generic cache
insert/retrieve/remove), embedded from the headers. -/
def boundaryDecls : List BoundaryDecl :=
  [⟨.functionNew, true, .intId⟩,
   ⟨.functionRun, true, .boolStatus⟩,
   ⟨.functionName, false, .constCharPtr⟩,
   ⟨.bufferNew, true, .intId⟩,
   ⟨.bufferRetrieve, true, .voidPtr⟩,
   ⟨.bufferClose, true, .boolStatus⟩,
   ⟨.cacheCacheV2, true, .intId⟩,
   ⟨.cacheRetrieveV2, true, .voidPtr⟩,
   ⟨.cacheRemoveV2, true, .boolStatus⟩,
   ⟨.cacheCacheV1, true, .intId⟩,
   ⟨.cacheRetrieveV1, true, .voidPtr⟩,
   ⟨.cacheRemoveV1, true, .voidReturn⟩]

/-- The error-signaling convention a declaration uses: diagnostics through
the out-parameter when it has one, silent/return-value-only otherwise. -/
def convention (d : BoundaryDecl) : ErrorConvention :=
  if d.hasErrorOutParam then .outParamDiagnostic else .silent

/-- All declared boundary operations use one and the same error-signaling
convention. -/
abbrev uniformConvention (ds : List BoundaryDecl) : Prop :=
  ∀ d1 ∈ ds, ∀ d2 ∈ ds, convention d1 = convention d2

/-! ### Concrete instances used by the witnesses -/

/-- A native backend stub that returns the buffers unchanged. -/
def execStub : Kernel → Int → Int → Int → List Int → List (List Int) →
    Except String (List (List Int)) :=
  fun _ _ _ _ _ bufs => .ok bufs

/-- A native compiler stub that always reports a syntax error. -/
def compileStub : String → String → Except String Kernel :=
  fun _ _ => .error "syntax error"

/-- An initialized state holding one live buffer (id 0 at pointer 7). -/
def oneBufferState : MetalState :=
  { initialized := true, functions := [], buffers := [(0, 7)]
    mem := [(7, [0, 0])], nextPtr := 1 }

/-- `oneBufferState` after its only buffer has been closed. -/
def noBufferState : MetalState :=
  { initialized := true, functions := [], buffers := [], mem := [], nextPtr := 1 }

/-- An initialized state holding one compiled function and no buffers. -/
def oneFunctionState : MetalState :=
  { initialized := true, functions := [(0, ⟨"add"⟩)], buffers := []
    mem := [], nextPtr := 0 }

end Metal

namespace Metal

/-! ### Basic handle-table lemmas -/

theorem mem_keys_lt_freshId {α : Type} (t : HandleTable α) (k : Nat)
    (hk : k ∈ keys t) : k < freshId t := by
  induction t with
  | nil => simp [keys] at hk
  | cons p rest ih =>
    simp only [keys, List.map_cons, List.mem_cons] at hk
    simp only [freshId, List.foldr_cons]
    rcases hk with h | h
    · subst h; exact lt_max_of_lt_left (Nat.lt_succ_self _)
    · exact lt_max_of_lt_right (ih h)

theorem freshId_not_mem_keys {α : Type} (t : HandleTable α) :
    freshId t ∉ keys t := by
  intro h
  exact absurd (mem_keys_lt_freshId t _ h) (lt_irrefl _)

theorem retrieve_after_cache {α : Type} (t : HandleTable α) (item : α) :
    cache_retrieve (cache_cache t item).2 (cache_cache t item).1 = some item := by
  simp [cache_cache, cache_retrieve, List.find?_cons]

theorem retrieve_after_remove {α : Type} (t : HandleTable α) (id : Nat) :
    cache_retrieve (t.filter (fun p => p.1 != id)) id = none := by
  induction t with
  | nil => rfl
  | cons p rest ih =>
    by_cases h : p.1 = id
    · simp [List.filter_cons, h, ih]
    · have hne : (p.1 != id) = true := by simp [h]
      have hbe : (p.1 == id) = false := by simp [h]
      simp only [cache_retrieve] at ih ⊢
      simp only [List.filter_cons, hne, if_true, List.find?_cons, hbe]
      exact ih

theorem remove_keys_filter {α : Type} (t : HandleTable α) (id : Nat)
    (h : (cache_remove t id).1 = true) :
    (cache_remove t id).2 = t.filter (fun p => p.1 != id) := by
  unfold cache_remove at *
  by_cases ha : t.any (fun p => p.1 == id)
  · simp [ha]
  · simp [ha] at h

theorem any_filter_ne_self {α : Type} (t : HandleTable α) (id : Nat) :
    (t.filter (fun p => p.1 != id)).any (fun p => p.1 == id) = false := by
  induction t with
  | nil => rfl
  | cons p rest ih =>
    by_cases h : p.1 = id
    · simp [List.filter_cons, h, ih]
    · have hne : (p.1 != id) = true := by simp [h]
      simp only [List.filter_cons, hne, if_true, List.any_cons, ih]
      simp [h]

theorem keys_cache_cons {α : Type} (t : HandleTable α) (item : α) :
    keys (cache_cache t item).2 = freshId t :: keys t := rfl

theorem keys_nodup_applyOp {α : Type} (t : HandleTable α) (op : CacheOp α)
    (h : (keys t).Nodup) : (keys (applyOp t op)).Nodup := by
  cases op with
  | ins item =>
    rw [applyOp, keys_cache_cons]
    exact List.nodup_cons.mpr ⟨freshId_not_mem_keys t, h⟩
  | rem id =>
    rw [applyOp]
    unfold cache_remove
    by_cases ha : t.any (fun p => p.1 == id)
    · simp only [ha, if_true]
      exact h.sublist ((t.filter_sublist).map Prod.fst)
    · simp only [ha]
      simpa using h

theorem keys_nodup_foldl {α : Type} (ops : List (CacheOp α)) :
    ∀ t : HandleTable α, (keys t).Nodup →
      (keys (ops.foldl applyOp t)).Nodup := by
  induction ops with
  | nil => intro t h; simpa using h
  | cons op rest ih =>
    intro t h
    rw [List.foldl_cons]
    exact ih _ (keys_nodup_applyOp t op h)

theorem freshId_after_cache {α : Type} (t : HandleTable α) (item : α) :
    freshId (cache_cache t item).2 = freshId t + 1 := by
  show max (freshId t + 1) (freshId t) = freshId t + 1
  exact Nat.max_eq_left (Nat.le_succ _)

theorem insertAll_ids {α : Type} (hs : List α) :
    ∀ t : HandleTable α, (insertAll t hs).1 = List.range' (freshId t) hs.length := by
  induction hs with
  | nil => intro t; rfl
  | cons h rest ih =>
    intro t
    show (cache_cache t h).1 :: (insertAll (cache_cache t h).2 rest).1 =
      List.range' (freshId t) (rest.length + 1)
    rw [ih, freshId_after_cache]
    rfl

/-! ### Lemmas about dispatch resolution and the memory frame -/

theorem resolveBuffers_error_spec (t : HandleTable Nat) :
    ∀ (ids : List Nat) (i : Nat), resolveBuffers t ids = .error i →
      i < ids.length ∧ cache_retrieve t (ids.getD i 0) = none ∧
      ∀ k, k < i → (cache_retrieve t (ids.getD k 0)).isSome = true := by
  intro ids
  induction ids with
  | nil => intro i h; simp [resolveBuffers] at h
  | cons id rest ih =>
    intro i h
    unfold resolveBuffers at h
    cases hr : cache_retrieve t id with
    | none =>
      rw [hr] at h
      cases h
      refine ⟨Nat.succ_pos _, by simpa using hr, ?_⟩
      intro k hk
      exact absurd hk (Nat.not_lt_zero k)
    | some p =>
      rw [hr] at h
      cases hrest : resolveBuffers t rest with
      | error j =>
        rw [hrest] at h
        cases h
        obtain ⟨hlen, hdead, hlive⟩ := ih j hrest
        refine ⟨Nat.succ_lt_succ hlen, by simpa using hdead, ?_⟩
        intro k hk
        cases k with
        | zero => simp [hr]
        | succ k => exact hlive k (Nat.lt_of_succ_lt_succ hk)
      | ok ps => rw [hrest] at h; cases h

theorem resolveBuffers_exists_error (t : HandleTable Nat) :
    ∀ ids : List Nat, (∃ id ∈ ids, cache_retrieve t id = none) →
      ∃ i, resolveBuffers t ids = .error i := by
  intro ids
  induction ids with
  | nil => intro h; simp at h
  | cons id rest ih =>
    intro h
    cases hr : cache_retrieve t id with
    | none => exact ⟨0, by simp [resolveBuffers, hr]⟩
    | some p =>
      obtain ⟨x, hx, hxd⟩ := h
      rcases List.mem_cons.mp hx with rfl | hxr
      · rw [hr] at hxd; cases hxd
      · obtain ⟨j, hj⟩ := ih ⟨x, hxr, hxd⟩
        exact ⟨j + 1, by simp [resolveBuffers, hr, hj]⟩

theorem memUpdate_keys (m : List (Nat × List Int)) (p : Nat) (c : List Int) :
    (memUpdate m p c).map Prod.fst = m.map Prod.fst := by
  induction m with
  | nil => rfl
  | cons q rest ih =>
    simp only [memUpdate, List.map_cons] at ih ⊢
    rw [ih]
    by_cases h : q.1 == p <;> simp [h]

theorem writeBlocks_keys (ws : List (Nat × List Int)) :
    ∀ m : List (Nat × List Int),
      (writeBlocks m ws).map Prod.fst = m.map Prod.fst := by
  induction ws with
  | nil => intro m; rfl
  | cons w rest ih =>
    intro m
    show (writeBlocks (memUpdate m w.1 w.2) rest).map Prod.fst = m.map Prod.fst
    rw [ih, memUpdate_keys]

theorem retrieve_some_any {α : Type} (t : HandleTable α) (id : Nat) (x : α)
    (h : cache_retrieve t id = some x) :
    t.any (fun p => p.1 == id) = true := by
  unfold cache_retrieve at h
  cases hf : t.find? (fun p => p.1 == id) with
  | none => rw [hf] at h; cases h
  | some q =>
    have hq := List.find?_some hf
    exact List.any_eq_true.mpr ⟨q, List.mem_of_find?_eq_some hf, hq⟩

theorem remove_of_retrieve_some {α : Type} (t : HandleTable α) (id : Nat)
    (x : α) (h : cache_retrieve t id = some x) :
    cache_remove t id = (true, t.filter (fun p => p.1 != id)) := by
  unfold cache_remove
  rw [retrieve_some_any t id x h]
  rfl

theorem buffer_close_ok_inv (s : MetalState) (bid : Nat) (s' : MetalState)
    (h : buffer_close s bid = (.ok (), s')) :
    s.initialized = true ∧ ∃ p, cache_retrieve s.buffers bid = some p ∧
      s' = { s with
              buffers := (cache_remove s.buffers bid).2
              mem := s.mem.filter (fun q => q.1 != p) } := by
  unfold buffer_close at h
  by_cases hinit : s.initialized = false
  · rw [if_pos hinit] at h
    cases h
  · rw [if_neg hinit] at h
    have hinit' : s.initialized = true := by
      cases hb : s.initialized
      · exact absurd hb hinit
      · rfl
    cases hr : cache_retrieve s.buffers bid with
    | none => rw [hr] at h; cases h
    | some p =>
      rw [hr] at h
      refine ⟨hinit', p, rfl, ?_⟩
      exact (Prod.mk.injEq _ _ _ _).mp h |>.2.symm

/-! ### The claims -/

/-- C1: For every handle `item` and every prior sequence of insert/remove
operations on the handle table, calling retrieve with the id returned by
`insert(item)`, immediately after that insert, returns exactly `item`. -/
theorem C1_retrieve_after_insert {α : Type} (ops : List (CacheOp α)) (item : α) :
    cache_retrieve (cache_cache (applyOps ops) item).2
      (cache_cache (applyOps ops) item).1 = some item :=
  retrieve_after_cache (applyOps ops) item

/-- C2: Once `remove(id)` has succeeded on the handle table, a subsequent
`retrieve(id)` returns NotFound and a second `remove(id)` fails; likewise a
second `buffer_close` on the same id fails with NotFound rather than
double-freeing. -/
theorem C2_remove_is_final {α : Type} (t : HandleTable α) (tid : Nat)
    (s s' : MetalState) (bid : Nat) :
    ((cache_remove t tid).1 = true →
      cache_retrieve (cache_remove t tid).2 tid = none ∧
      (cache_remove (cache_remove t tid).2 tid).1 = false) ∧
    (buffer_close s bid = (.ok (), s') →
      buffer_close s' bid = (.error (.notFound bid), s')) := by
  constructor
  · intro h
    rw [remove_keys_filter t tid h]
    refine ⟨retrieve_after_remove t tid, ?_⟩
    unfold cache_remove
    rw [any_filter_ne_self]
    rfl
  · intro h
    obtain ⟨hinit, p, hp, rfl⟩ := buffer_close_ok_inv s bid s' h
    have hrm : cache_remove s.buffers bid =
        (true, s.buffers.filter (fun q => q.1 != bid)) :=
      remove_of_retrieve_some s.buffers bid p hp
    unfold buffer_close
    have hinit' : ¬ ((MetalState.mk true s.functions
        (cache_remove s.buffers bid).2
        (s.mem.filter (fun q => q.1 != p)) s.nextPtr).initialized = false) := by
      simp
    rw [hinit] at *
    rw [if_neg hinit']
    have : cache_retrieve (cache_remove s.buffers bid).2 bid = none := by
      rw [hrm]
      exact retrieve_after_remove s.buffers bid
    rw [this]

/-- C2 witness: in a concrete table holding only id 0, removing id 0
succeeds, after which retrieval and a second removal fail; in a concrete
state holding one live buffer, closing it succeeds and a second close
fails with NotFound. -/
theorem C2_witness :
    cache_retrieve (cache_remove ([(0, 5)] : HandleTable Nat) 0).2 0 = none ∧
    (cache_remove (cache_remove ([(0, 5)] : HandleTable Nat) 0).2 0).1 = false ∧
    buffer_close noBufferState 0 = (.error (.notFound 0), noBufferState) := by
  have h := C2_remove_is_final ([(0, 5)] : HandleTable Nat) 0
    oneBufferState noBufferState 0
  have h1 := h.1 (by decide)
  have h2 := h.2 (by decide)
  exact ⟨h1.1, h1.2, h2⟩

/-- C3: At every table reached by a sequence of insert/remove operations,
the live ids are pairwise distinct; inserting N further handles yields N
pairwise distinct ids; and the id a fresh insert would issue is never one
that is still live. -/
theorem C3_ids_distinct {α : Type} (ops : List (CacheOp α)) (hs : List α) :
    (keys (applyOps ops)).Nodup ∧
    (insertAll (applyOps ops) hs).1.Nodup ∧
    freshId (applyOps ops) ∉ keys (applyOps ops) := by
  refine ⟨keys_nodup_foldl ops (cache_init α) (by simp [keys, cache_init]),
    ?_, freshId_not_mem_keys _⟩
  rw [insertAll_ids hs (applyOps ops)]
  exact List.nodup_range' _ _

/-- C4: After initialization, for every id that does not refer to a live
compiled function, `function_name` does not crash (it is a total function)
and reports NotFound to the caller. -/
theorem C4_function_name_not_found (s : MetalState) (functionId : Nat)
    (hinit : s.initialized = true)
    (hdead : cache_retrieve s.functions functionId = none) :
    function_name s functionId = .error (.notFound functionId) := by
  unfold function_name
  rw [hinit, hdead]
  rfl

/-- C4 witness: right after Bootstrap no function is live, and looking up
id 0 reports NotFound. -/
theorem C4_witness :
    (metal_init initialState).initialized = true ∧
    cache_retrieve (metal_init initialState).functions 0 = none ∧
    function_name (metal_init initialState) 0 = .error (.notFound 0) :=
  ⟨rfl, rfl, C4_function_name_not_found (metal_init initialState) 0 rfl rfl⟩

/-- C5 counterexample: the declared boundary operations do not all use one
error-signaling convention: `function_name` is declared without the
`const char **error` out-parameter that every other operation carries (and
`cache.h`'s `cache_remove` returns `void` where `Cache2.h`'s returns
`_Bool`). -/
theorem C5_counterexample : ¬ uniformConvention boundaryDecls := by
  decide

/-- C5 (amended): every declared boundary operation except `function_name`
uses the out-parameter diagnostic convention, while `function_name` signals
only through its return value. -/
theorem C5_convention_split :
    (∀ d ∈ boundaryDecls, d.op ≠ OpName.functionName →
      convention d = ErrorConvention.outParamDiagnostic) ∧
    (∀ d ∈ boundaryDecls, d.op = OpName.functionName →
      convention d = ErrorConvention.silent) := by
  decide

/-- C5 witness: `function_new` is declared with the out-parameter
convention while `function_name` is declared silent. -/
theorem C5_witness :
    convention ⟨.functionNew, true, .intId⟩ = ErrorConvention.outParamDiagnostic ∧
    convention ⟨.functionName, false, .constCharPtr⟩ = ErrorConvention.silent :=
  ⟨C5_convention_split.1 ⟨.functionNew, true, .intId⟩ (by decide) (by decide),
   C5_convention_split.2 ⟨.functionName, false, .constCharPtr⟩ (by decide) (by decide)⟩

/-- C6 counterexample: a dispatch whose bufferIds contain a dead id does
not always fail with `BufferNotFound`: when the functionId is also dead the
call fails with `FunctionNotFound` (spec section 4.4 resolves the function
first), not with `BufferNotFound` at position 0. -/
theorem C6_counterexample :
    cache_retrieve (metal_init initialState).buffers 0 = none ∧
    function_run execStub (metal_init initialState) 0 1 1 1 [] [0] =
      (.error .dispatchFunctionNotFound, metal_init initialState) ∧
    (function_run execStub (metal_init initialState) 0 1 1 1 [] [0]).1 ≠
      .error (.dispatchBufferNotFound 0) := by
  refine ⟨rfl, rfl, by decide⟩

/-- C6 (amended): for every dispatch call whose functionId resolves to a
live compiled function and whose bufferIds contain at least one id that is
not live, the call resolves bufferIds in order, fails with
`DispatchError(BufferNotFound)` at the first missing id, identifying that
argument's position, and submits no work to the native backend (the state
is unchanged). -/
theorem C6_first_missing_buffer
    (nativeExec : Kernel → Int → Int → Int → List Int → List (List Int) →
       Except String (List (List Int)))
    (s : MetalState) (functionId : Nat) (width height depth : Int)
    (args : List Int) (bufferIds : List Nat)
    (hinit : s.initialized = true)
    (k : Kernel) (hfun : cache_retrieve s.functions functionId = some k)
    (hmiss : ∃ id ∈ bufferIds, cache_retrieve s.buffers id = none) :
    ∃ i, function_run nativeExec s functionId width height depth args bufferIds =
        (.error (.dispatchBufferNotFound i), s) ∧
      i < bufferIds.length ∧
      cache_retrieve s.buffers (bufferIds.getD i 0) = none ∧
      ∀ j, j < i → (cache_retrieve s.buffers (bufferIds.getD j 0)).isSome = true := by
  obtain ⟨i, hi⟩ := resolveBuffers_exists_error s.buffers bufferIds hmiss
  obtain ⟨hlen, hdead, hlive⟩ := resolveBuffers_error_spec s.buffers bufferIds i hi
  refine ⟨i, ?_, hlen, hdead, hlive⟩
  simp [function_run, hinit, hfun, hi]

/-- C6 witness: in a state with one live function and no buffers,
dispatching with bufferIds [3] fails with `BufferNotFound` at position 0
and leaves the state unchanged. -/
theorem C6_witness :
    ∃ i, function_run execStub oneFunctionState 0 1 1 1 [] [3] =
        (.error (.dispatchBufferNotFound i), oneFunctionState) ∧
      i < [3].length ∧
      cache_retrieve oneFunctionState.buffers ([3].getD i 0) = none ∧
      ∀ j, j < i →
        (cache_retrieve oneFunctionState.buffers ([3].getD j 0)).isSome = true :=
  C6_first_missing_buffer execStub oneFunctionState 0 1 1 1 [] [3]
    rfl ⟨"add"⟩ rfl ⟨3, by decide, rfl⟩

/-- C7: For every dispatch call, successful or failed, the Function
Registry and the Handle Table are unchanged afterwards (and so are the
Bootstrap flag, the pointer allocator and the set of allocated memory
blocks): dispatch's only mutation is to the contents of the bound
buffers. -/
theorem C7_dispatch_frame
    (nativeExec : Kernel → Int → Int → Int → List Int → List (List Int) →
       Except String (List (List Int)))
    (s : MetalState) (functionId : Nat) (width height depth : Int)
    (args : List Int) (bufferIds : List Nat) :
    (function_run nativeExec s functionId width height depth args bufferIds).2.functions
        = s.functions ∧
    (function_run nativeExec s functionId width height depth args bufferIds).2.buffers
        = s.buffers ∧
    (function_run nativeExec s functionId width height depth args bufferIds).2.initialized
        = s.initialized ∧
    (function_run nativeExec s functionId width height depth args bufferIds).2.nextPtr
        = s.nextPtr ∧
    (function_run nativeExec s functionId width height depth args bufferIds).2.mem.map
        Prod.fst = s.mem.map Prod.fst := by
  unfold function_run
  split
  · exact ⟨rfl, rfl, rfl, rfl, rfl⟩
  · split
    · exact ⟨rfl, rfl, rfl, rfl, rfl⟩
    · split
      · exact ⟨rfl, rfl, rfl, rfl, rfl⟩
      · split
        · exact ⟨rfl, rfl, rfl, rfl, rfl⟩
        · exact ⟨rfl, rfl, rfl, rfl, writeBlocks_keys _ _⟩

/-- C8: A compile call on source the native compiler rejects returns
`CompileError` carrying the (non-empty) native diagnostic, produces no
HandleId, and leaves the state, in particular the function table's live
entries, unchanged. -/
theorem C8_compile_error (compileNative : String → String → Except String Kernel)
    (s : MetalState) (metalCode funcName diag : String)
    (hinit : s.initialized = true)
    (hc : compileNative metalCode funcName = .error diag)
    (hd : diag ≠ "") :
    function_new compileNative s metalCode funcName =
      (.error (.compileError diag), s) ∧
    diag ≠ "" ∧
    (function_new compileNative s metalCode funcName).1 ≠ .ok (freshId s.functions) := by
  have hmain : function_new compileNative s metalCode funcName =
      (.error (.compileError diag), s) := by
    simp [function_new, hinit, hc]
  refine ⟨hmain, hd, ?_⟩
  rw [hmain]
  intro hcon
  cases hcon

/-- C8 witness: compiling a malformed source with a native compiler that
reports "syntax error" yields `CompileError` with that non-empty
diagnostic and an unchanged state. -/
theorem C8_witness :
    function_new compileStub (metal_init initialState) "bad source" "main" =
      (.error (.compileError "syntax error"), metal_init initialState) ∧
    "syntax error" ≠ "" ∧
    (function_new compileStub (metal_init initialState) "bad source" "main").1 ≠
      .ok (freshId (metal_init initialState).functions) :=
  C8_compile_error compileStub (metal_init initialState) "bad source" "main"
    "syntax error" rfl rfl (by decide)

/-- C9: Before Bootstrap has completed, no boundary operation succeeds:
compile, dispatch, name lookup, allocate, map and release all fail fast
with the distinct NotInitialized error and change nothing. -/
theorem C9_not_initialized
    (nativeExec : Kernel → Int → Int → Int → List Int → List (List Int) →
       Except String (List (List Int)))
    (compileNative : String → String → Except String Kernel)
    (s : MetalState) (metalCode funcName : String)
    (functionId : Nat) (width height depth : Int) (args : List Int)
    (bufferIds : List Nat) (size : Int) (bufferId : Nat)
    (hinit : s.initialized = false) :
    function_new compileNative s metalCode funcName = (.error .notInitialized, s) ∧
    function_run nativeExec s functionId width height depth args bufferIds =
      (.error .notInitialized, s) ∧
    function_name s functionId = .error .notInitialized ∧
    buffer_new s size = (.error .notInitialized, s) ∧
    buffer_retrieve s bufferId = .error .notInitialized ∧
    buffer_close s bufferId = (.error .notInitialized, s) := by
  refine ⟨?_, ?_, ?_, ?_, ?_, ?_⟩ <;>
    simp [function_new, function_run, function_name, buffer_new,
      buffer_retrieve, buffer_close, hinit]

/-- C9 witness: in the pre-Bootstrap state every boundary operation fails
with NotInitialized and changes nothing. -/
theorem C9_witness :
    initialState.initialized = false ∧
    function_new compileStub initialState "code" "f" =
      (.error .notInitialized, initialState) ∧
    function_run execStub initialState 0 1 1 1 [] [] =
      (.error .notInitialized, initialState) ∧
    function_name initialState 0 = .error .notInitialized ∧
    buffer_new initialState 4 = (.error .notInitialized, initialState) ∧
    buffer_retrieve initialState 0 = .error .notInitialized ∧
    buffer_close initialState 0 = (.error .notInitialized, initialState) := by
  have h := C9_not_initialized execStub compileStub initialState "code" "f"
    0 1 1 1 [] [] 4 0 rfl
  exact ⟨rfl, h.1, h.2.1, h.2.2.1, h.2.2.2.1, h.2.2.2.2.1, h.2.2.2.2.2⟩

/-- C10: A NULL handle (pointer 0) is admissible input to the cache's
insert and is retrievable; at the C boundary, where `cache_retrieve`
returns the stored `void *` directly, a successful retrieve of a cached
NULL handle returns the same pointer value (0) as a failed lookup, and
only the error out-parameter distinguishes the two outcomes. -/
theorem C10_null_handle (t : HandleTable Nat) (nullId missId : Nat)
    (hstored : cache_retrieve t nullId = some 0)
    (hmiss : cache_retrieve t missId = none) :
    (cache_retrieve_c t nullId).1 = (cache_retrieve_c t missId).1 ∧
    (cache_retrieve_c t nullId).2 = none ∧
    (cache_retrieve_c t missId).2.isSome = true ∧
    cache_retrieve (cache_cache t 0).2 (cache_cache t 0).1 = some 0 := by
  refine ⟨?_, ?_, ?_, retrieve_after_cache t 0⟩ <;>
    simp [cache_retrieve_c, hstored, hmiss]

/-- C10 witness: after caching the NULL pointer under id 0, retrieving id 0
and retrieving the absent id 1 both return pointer 0; only the error
out-parameter differs. -/
theorem C10_witness :
    (cache_retrieve_c [(0, 0)] 0).1 = (cache_retrieve_c [(0, 0)] 1).1 ∧
    (cache_retrieve_c [(0, 0)] 0).2 = none ∧
    (cache_retrieve_c [(0, 0)] 1).2.isSome = true ∧
    cache_retrieve (cache_cache ([(0, 0)] : HandleTable Nat) 0).2
      (cache_cache ([(0, 0)] : HandleTable Nat) 0).1 = some 0 :=
  C10_null_handle [(0, 0)] 0 1 rfl rfl

end Metal
